import Mathlib

/-!
Verification of `test_suites/generate_big_csv.py`, a twelve-line script that
prints a CSV header and `rows` synthetic data lines to standard output.

Embedding conventions: Python's unbounded `int` is `ℤ`; `range(0, n)` is
`List.range n.toNat` (empty when `n ≤ 0`, as in Python); Python's `%` with
the positive modulus `128` agrees with `Int.emod` (both return the
representative in `[0, 128)`); each `print` call appends one line to the
stdout transcript, and `render` turns a transcript into the byte-level
stream contents (each line followed by a newline, as `print` emits).
-/

namespace GenerateBigCsv

/-- The literal header line, printed by `print("type,client,tx,amount")`. -/
def header : String := "type,client,tx,amount"

/-- One generated record, carrying the four values the loop body computes
and interpolates into the f-string. -/
structure Row where
  type : String
  client : ℤ
  tx : ℤ
  amount : ℤ
deriving DecidableEq, Repr

/-- The record built at loop index `i`: the body sets `client = i % 128`
and the f-string fields are the literal `deposit`, `client`, `i`, and the
literal `1`. -/
def mkRow (i : ℤ) : Row :=
  { type := "deposit", client := i % 128, tx := i, amount := 1 }

/-- Serialization of a record, mirroring `f"deposit,{client},{i},1"`:
the four field values joined by commas. -/
def serialize (r : Row) : String :=
  r.type ++ "," ++ toString r.client ++ "," ++ toString r.tx ++ ","
    ++ toString r.amount

/-- The data line printed at loop index `i`. -/
def dataLine (i : ℤ) : String := serialize (mkRow i)

/-- The data lines printed by `for i in range(0, args.rows)`, in loop
order.  `range(0, n)` is empty when `n ≤ 0`, which `Int.toNat` captures. -/
def dataLines (rows : ℤ) : List String :=
  (List.range rows.toNat).map (fun k => dataLine (Int.ofNat k))

/-- The full stdout transcript (list of printed lines) of a run whose
`--rows` argument parsed to `rows`. -/
def output (rows : ℤ) : List String := header :: dataLines rows

/-- The byte-level stdout contents of a transcript: `print` terminates
every line with a newline. -/
def render (lines : List String) : String :=
  String.join (lines.map (fun l => l ++ "\n"))

/-- The `--rows` command-line argument as `argparse` processing sees it:
absent (`add_argument` passes neither `required=True` nor a default, so
`args.rows` becomes `None`), present but rejected by `type=int`, or
parsed to an integer. -/
inductive RowsArg where
  | missing
  | unparseable
  | value (n : ℤ)
deriving DecidableEq

/-- Ambient process state an invocation could in principle observe
(a clock, a randomness source).  The script reads neither: it imports
only `argparse`. -/
structure Env where
  time : ℕ
  randomSeed : ℕ

/-- One invocation of the script under ambient state `env`, returning the
stdout transcript and the process exit status:
* `--rows` present but not integer-parseable: `argparse` reports the
  problem on stderr and exits with status 2 before anything reaches
  stdout;
* `--rows` absent: `args.rows` is `None`, the header is printed, then
  `range(0, None)` raises `TypeError` and the interpreter dies with
  status 1 — after the header has been written;
* `--rows` parsed to `n`: the header and the data lines are printed and
  the process exits with status 0.
The body never consults `env`. -/
def runInEnv (_env : Env) (arg : RowsArg) : List String × ℕ :=
  match arg with
  | .unparseable => ([], 2)
  | .missing => ([header], 1)
  | .value n => (output n, 0)

/-- One invocation in an arbitrary fixed environment. -/
def run (arg : RowsArg) : List String × ℕ := runInEnv ⟨0, 0⟩ arg

/-! ### Basic lemmas -/

theorem dataLines_length (rows : ℤ) : (dataLines rows).length = rows.toNat := by
  rw [dataLines, List.length_map, List.length_range]

theorem dataLines_getElem (rows : ℤ) (k : ℕ) (hk : k < rows.toNat) :
    (dataLines rows)[k]? = some (dataLine (Int.ofNat k)) := by
  rw [dataLines, List.getElem?_map, List.getElem?_range hk]
  rfl

theorem dataLine_head (i : ℤ) : (dataLine i).data.head? = some 'd' := by
  simp [dataLine, serialize, mkRow, String.data_append]

theorem dataLine_ne_header (i : ℤ) : dataLine i ≠ header := by
  intro h
  have h2 : (dataLine i).data.head? = header.data.head? := by rw [h]
  rw [dataLine_head i] at h2
  exact absurd h2 (by decide)

theorem dataLine_eq (i : ℤ) :
    dataLine i = "deposit," ++ toString (i % 128) ++ "," ++ toString i ++ ",1" := by
  have h1 : ("deposit" : String) ++ "," = "deposit," := by decide
  have h2 : ("," : String) ++ toString (1 : ℤ) = ",1" := by decide
  show ((((("deposit" ++ ",") ++ toString (i % 128)) ++ ",") ++ toString i) ++ ",")
      ++ toString (1 : ℤ) = _
  rw [h1, String.append_assoc, h2]

theorem dataLines_count_header (rows : ℤ) : (dataLines rows).count header = 0 := by
  refine List.count_eq_zero.mpr ?_
  intro hmem
  rw [dataLines] at hmem
  obtain ⟨k, _, hk⟩ := List.mem_map.mp hmem
  exact dataLine_ne_header (Int.ofNat k) hk

/-! ### Claims -/

/-- Claim C1: for every non-negative integer `rows`, the output is
exactly `rows + 1` lines: the literal header first and exactly once,
followed by exactly `rows` data lines. -/
theorem C1_header_then_rows (rows : ℕ) :
    output (Int.ofNat rows) = header :: dataLines (Int.ofNat rows) ∧
    (output (Int.ofNat rows)).length = rows + 1 ∧
    (dataLines (Int.ofNat rows)).length = rows ∧
    (output (Int.ofNat rows)).count header = 1 := by
  refine ⟨rfl, ?_, dataLines_length _, ?_⟩
  · rw [output, List.length_cons, dataLines_length]
    exact rfl
  · rw [output, List.count_cons_self, dataLines_count_header]

/-- Claim C2 counterexample: invoked with the `--rows` argument missing,
the program writes the header line to the data stream before it fails, so
the run produces a non-empty stdout — refuting the claim that with a
missing argument zero bytes of output are produced. -/
theorem C2_counterexample :
    (run RowsArg.missing).1 = [header] ∧
    render (run RowsArg.missing).1 ≠ "" := by
  exact ⟨rfl, by decide⟩

/-- Claim C2 (amended): with a non-integer-parseable `--rows` argument the
program fails before any output is produced (zero bytes on the data
stream) and halts with non-zero status 2; with a missing `--rows`
argument it also halts with a non-zero status, but only after writing the
header line to the data stream. -/
theorem C2_amended_behavior :
    run RowsArg.unparseable = ([], 2) ∧
    render (run RowsArg.unparseable).1 = "" ∧
    run RowsArg.missing = ([header], 1) ∧
    (run RowsArg.missing).2 ≠ 0 := by
  exact ⟨rfl, by decide, rfl, by decide⟩

/-- Claim C3: every generated data line carries `client = tx % 128`, and
the client value always lies in `[0, 127]`. -/
theorem C3_client_eq_tx_mod (rows k : ℕ) (hk : k < rows) :
    (dataLines (Int.ofNat rows))[k]? = some (serialize (mkRow (Int.ofNat k))) ∧
    (mkRow (Int.ofNat k)).client = (mkRow (Int.ofNat k)).tx % 128 ∧
    0 ≤ (mkRow (Int.ofNat k)).client ∧
    (mkRow (Int.ofNat k)).client < 128 := by
  refine ⟨dataLines_getElem _ _ hk, rfl, ?_, ?_⟩
  · exact Int.emod_nonneg _ (by norm_num)
  · exact Int.emod_lt_of_pos _ (by norm_num)

/-- Claim C3 witness at rows = 1, k = 0. -/
theorem C3_client_eq_tx_mod_witness :
    (dataLines (Int.ofNat 1))[0]? = some (serialize (mkRow (Int.ofNat 0))) ∧
    (mkRow (Int.ofNat 0)).client = (mkRow (Int.ofNat 0)).tx % 128 ∧
    0 ≤ (mkRow (Int.ofNat 0)).client ∧
    (mkRow (Int.ofNat 0)).client < 128 :=
  C3_client_eq_tx_mod 1 0 (by decide)

/-- Claim C4: every data line — the `k`-th line for every `k < rows` —
is the serialization of the row built at loop index `k`, whose `tx`
field is exactly `k`; `tx` starts at `0` and is strictly increasing
across later positions (hence unique per row), and the lines appear in
that order. -/
theorem C4_tx_is_position (rows k : ℕ) (hk : k < rows) :
    (dataLines (Int.ofNat rows))[k]? = some (serialize (mkRow (Int.ofNat k))) ∧
    (mkRow (Int.ofNat k)).tx = Int.ofNat k ∧
    (mkRow (Int.ofNat 0)).tx = 0 ∧
    ∀ j : ℕ, j < rows → k < j →
      (mkRow (Int.ofNat k)).tx < (mkRow (Int.ofNat j)).tx := by
  refine ⟨dataLines_getElem _ _ hk, rfl, rfl, ?_⟩
  intro j _ hkj
  exact Int.ofNat_lt.mpr hkj

/-- Claim C4 witness at rows = 2, k = 1: the last data line of the run. -/
theorem C4_tx_is_position_witness :
    (dataLines (Int.ofNat 2))[1]? = some (serialize (mkRow (Int.ofNat 1))) ∧
    (mkRow (Int.ofNat 1)).tx = Int.ofNat 1 ∧
    (mkRow (Int.ofNat 0)).tx = 0 ∧
    (∀ j : ℕ, j < 2 → 1 < j →
      (mkRow (Int.ofNat 1)).tx < (mkRow (Int.ofNat j)).tx) :=
  C4_tx_is_position 2 1 (by decide)

/-- Claim C5: every data line has `type = "deposit"` and `amount = 1`, and
the line text is exactly the comma-joined form
`deposit,<client>,<row_index>,1`. -/
theorem C5_line_form (rows k : ℕ) (hk : k < rows) :
    (dataLines (Int.ofNat rows))[k]? =
      some ("deposit," ++ toString ((mkRow (Int.ofNat k)).client) ++ ","
        ++ toString (Int.ofNat k) ++ ",1") ∧
    (mkRow (Int.ofNat k)).type = "deposit" ∧
    (mkRow (Int.ofNat k)).amount = 1 := by
  refine ⟨?_, rfl, rfl⟩
  rw [dataLines_getElem (Int.ofNat rows) k hk, dataLine_eq]
  rfl

/-- Claim C5 witness at rows = 1, k = 0. -/
theorem C5_line_form_witness :
    (dataLines (Int.ofNat 1))[0]? =
      some ("deposit," ++ toString ((mkRow (Int.ofNat 0)).client) ++ ","
        ++ toString (Int.ofNat 0) ++ ",1") ∧
    (mkRow (Int.ofNat 0)).type = "deposit" ∧
    (mkRow (Int.ofNat 0)).amount = 1 :=
  C5_line_form 1 0 (by decide)

/-- Claim C6: for every negative `rows` value the run writes the header
line, zero data rows, and terminates normally with exit status 0. -/
theorem C6_negative_rows (n : ℤ) (hn : n < 0) :
    run (RowsArg.value n) = ([header], 0) := by
  have h0 : n.toNat = 0 := Int.toNat_of_nonpos hn.le
  simp [run, runInEnv, output, dataLines, h0]

/-- Claim C6 witness at rows = -5. -/
theorem C6_negative_rows_witness :
    run (RowsArg.value (-5)) = ([header], 0) :=
  C6_negative_rows (-5) (by decide)

/-- Claim C7: the output is a deterministic function of the `--rows`
argument alone — two invocations with the same argument under arbitrary
(possibly different) ambient environments produce the same transcript,
hence byte-identical rendered output. -/
theorem C7_deterministic (e₁ e₂ : Env) (arg : RowsArg) :
    runInEnv e₁ arg = runInEnv e₂ arg ∧
    render (runInEnv e₁ arg).1 = render (runInEnv e₂ arg).1 :=
  ⟨rfl, rfl⟩

/-- Claim C7 witness at two distinct environments and rows = 2. -/
theorem C7_deterministic_witness :
    runInEnv ⟨3, 5⟩ (RowsArg.value 2) = runInEnv ⟨7, 11⟩ (RowsArg.value 2) ∧
    render (runInEnv ⟨3, 5⟩ (RowsArg.value 2)).1
      = render (runInEnv ⟨7, 11⟩ (RowsArg.value 2)).1 :=
  C7_deterministic ⟨3, 5⟩ ⟨7, 11⟩ (RowsArg.value 2)

/-- Claim C8: boundary outputs — `rows = 0` yields exactly the header
line; `rows = 1` yields the header followed by `deposit,0,0,1`;
`rows = 200` ends with the line `deposit,71,199,1`. -/
theorem C8_boundaries :
    output 0 = [header] ∧
    output 1 = [header, "deposit,0,0,1"] ∧
    (output 200).getLast? = some "deposit,71,199,1" := by
  exact ⟨by decide, by decide, by decide⟩

/-- Claim C9: the argument parser accepts a missing `--rows` (it is not
required and has no default), so the run prints the header line and only
then dies of the `TypeError` raised by `range(0, None)`: output is
produced before the failure, and the exit status is non-zero. -/
theorem C9_missing_rows_prints_header :
    run RowsArg.missing = ([header], 1) ∧
    render (run RowsArg.missing).1 ≠ "" ∧
    (run RowsArg.missing).2 ≠ 0 := by
  exact ⟨rfl, by decide, by decide⟩

/-- Claim C10: the client sequence is periodic with period 128 — data
lines at zero-based positions `k` and `k + 128` (both below `rows`) carry
equal client fields. -/
theorem C10_client_periodic (rows k : ℕ) (hk : k + 128 < rows) :
    (dataLines (Int.ofNat rows))[k]? = some (serialize (mkRow (Int.ofNat k))) ∧
    (dataLines (Int.ofNat rows))[k + 128]?
      = some (serialize (mkRow (Int.ofNat (k + 128)))) ∧
    (mkRow (Int.ofNat (k + 128))).client = (mkRow (Int.ofNat k)).client := by
  have h1 : k < (Int.ofNat rows).toNat := by
    show k < rows
    omega
  have h2 : k + 128 < (Int.ofNat rows).toNat := hk
  refine ⟨dataLines_getElem _ _ h1, dataLines_getElem _ _ h2, ?_⟩
  show (((k + 128 : ℕ) : ℤ)) % 128 = ((k : ℕ) : ℤ) % 128
  push_cast
  omega

/-- Claim C10 witness at rows = 129, k = 0. -/
theorem C10_client_periodic_witness :
    (dataLines (Int.ofNat 129))[0]? = some (serialize (mkRow (Int.ofNat 0))) ∧
    (dataLines (Int.ofNat 129))[0 + 128]?
      = some (serialize (mkRow (Int.ofNat (0 + 128)))) ∧
    (mkRow (Int.ofNat (0 + 128))).client = (mkRow (Int.ofNat 0)).client :=
  C10_client_periodic 129 0 (by decide)

end GenerateBigCsv
